import Mathlib

/-!
Shallow embedding of the visualization state engine of the embedding page
(`src/app/src/pages/embedding/EmbeddingPage.tsx`): the point normalizer, the
UMAP request-parameter assembly, the request lifecycle and store interaction,
cluster selection, color-mode switching, and the cluster metric-name resolver.

Numeric payloads (coordinates, scores, ratios, hyperparameters) are only
carried through by this code, never computed on; they are modelled as `Int`.
-/

namespace Phoenix

/-- The coordinate union of a UMAP point record, tagged `Point2D | Point3D`
(the `__typename` discriminator of the GraphQL union). -/
inductive Coordinates where
  | point2D (x y : Int)
  | point3D (x y z : Int)
  deriving DecidableEq, Repr

/-- The `__typename` string of a coordinates record. -/
def Coordinates.typename : Coordinates → String
  | .point2D _ _ => "Point2D"
  | .point3D _ _ _ => "Point3D"

/-- The `embeddingMetadata` record of a UMAP point record. -/
structure EmbeddingMetadata where
  linkToData : Option String
  rawData : Option String
  deriving DecidableEq, Repr

/-- The `eventMetadata` record of a UMAP point record. -/
structure EventMetadata where
  predictionId : Option String
  predictionLabel : Option String
  actualLabel : Option String
  predictionScore : Option Int
  actualScore : Option Int
  deriving DecidableEq, Repr

/-- One raw point record of the UMAP response (`UMAPPointsEntry`). -/
structure UMAPPointsEntry where
  id : String
  eventId : String
  coordinates : Coordinates
  embeddingMetadata : EmbeddingMetadata
  eventMetadata : EventMetadata
  deriving DecidableEq, Repr

/-- Function `coordinatesToThreeDimensionalPoint`: throws unless the coordinate record
is tagged `Point3D`; otherwise returns `[x, y, z]`.  The thrown `Error` is
modelled as `Except.error` carrying the message string. -/
def coordinatesToThreeDimensionalPoint (coordinates : Coordinates) :
    Except String (List Int) :=
  match coordinates with
  | .point3D x y z => .ok [x, y, z]
  | c => .error ("Expected Point3D but got " ++ c.typename ++ " for coordinates")

/-- The `metaData` attached to each normalized point, holding the `eventId`. -/
structure PointMetaData where
  id : String
  deriving DecidableEq, Repr

/-- A normalized point as produced by `allSourceData`: the raw record spread
(`...d`) together with the extracted `position` and the attached `metaData`. -/
structure NormalizedPoint where
  id : String
  eventId : String
  coordinates : Coordinates
  embeddingMetadata : EmbeddingMetadata
  eventMetadata : EventMetadata
  position : List Int
  metaData : PointMetaData
  deriving DecidableEq, Repr

/-- The body of the `allData.map` callback in `allSourceData`. -/
def normalizePoint (d : UMAPPointsEntry) : Except String NormalizedPoint := do
  let position ← coordinatesToThreeDimensionalPoint d.coordinates
  return { id := d.id
           eventId := d.eventId
           coordinates := d.coordinates
           embeddingMetadata := d.embeddingMetadata
           eventMetadata := d.eventMetadata
           position := position
           metaData := { id := d.eventId } }

/-- The memo `allSourceData`: concatenates the primary (`sourceData`), reference and
corpus arrays and maps each record to a normalized point; the first coordinate
mismatch aborts the whole computation (the map callback throws). -/
def allSourceData (sourceData referenceSourceData corpusSourceData :
    List UMAPPointsEntry) : Except String (List NormalizedPoint) :=
  (sourceData ++ referenceSourceData ++ corpusSourceData).mapM normalizePoint

/-- The supported performance metrics (`PerformanceMetric` GraphQL enum);
`accuracyScore` is the only member named by the surveyed material. -/
inductive PerformanceMetric where
  | accuracyScore
  deriving DecidableEq, Repr

/-- The drift metric enum. -/
inductive DriftMetric where
  | euclideanDistance
  deriving DecidableEq, Repr

/-- The retrieval metric enum. -/
inductive RetrievalMetric where
  | queryDistance
  deriving DecidableEq, Repr

/-- A model dimension; the metric selector supplies its `name`. -/
structure Dimension where
  name : String
  deriving DecidableEq, Repr

/-- The tagged `MetricDefinition` variant held by the store. -/
inductive MetricDefinition where
  | dataQuality (dimension : Dimension)
  | drift (metric : DriftMetric)
  | performance (metric : PerformanceMetric)
  | retrieval (metric : RetrievalMetric)
  deriving DecidableEq, Repr

/-- The `type` discriminator string of a `MetricDefinition`. -/
def MetricDefinition.type : MetricDefinition → String
  | .dataQuality _ => "dataQuality"
  | .drift _ => "drift"
  | .performance _ => "performance"
  | .retrieval _ => "retrieval"

/-- The `timeRange` of the UMAP query, millisecond timestamps. -/
structure TimeRange where
  start : Int
  «end» : Int
  deriving DecidableEq, Repr

/-- The `umapParameters` of the store: minDist, nNeighbors and nSamples. -/
structure UMAPParameters where
  minDist : Int
  nNeighbors : Nat
  nSamples : Nat
  deriving DecidableEq, Repr

/-- The clustering hyperparameters returned by `getHDSCANParameters()`. -/
structure ClusteringParameters where
  minClusterSize : Nat
  clusterMinSamples : Nat
  clusterSelectionEpsilon : Int
  deriving DecidableEq, Repr

/-- The variables object passed to `loadQuery` for `EmbeddingPageUMAPQuery`.
`dataQualityMetricColumnName` is a nullable GraphQL variable (`none` models
the `null` the code passes); `performanceMetric` is wrapped in `Option` so
that absence is representable, though the code always supplies a value. -/
structure UMAPQueryVariables where
  id : String
  timeRange : TimeRange
  minDist : Int
  nNeighbors : Nat
  nSamples : Nat
  minClusterSize : Nat
  clusterMinSamples : Nat
  clusterSelectionEpsilon : Int
  fetchDataQualityMetric : Bool
  fetchPerformanceMetric : Bool
  dataQualityMetricColumnName : Option String
  performanceMetric : Option PerformanceMetric
  deriving DecidableEq, Repr

/-- The variables object assembled inside the `useEffect` of `EmbeddingMain`
(spreads of `umapParameters` and `getHDSCANParameters()` plus the metric-derived
fields; the `performanceMetric` fallback `accuracyScore` mirrors the code's
"should never happen but is to satisfy the type checker" ternary). -/
def assembleUMAPQueryVariables (embeddingDimensionId : String)
    (timeRange : TimeRange) (umapParameters : UMAPParameters)
    (hdbscanParameters : ClusteringParameters) (metric : MetricDefinition) :
    UMAPQueryVariables :=
  { id := embeddingDimensionId
    timeRange := timeRange
    minDist := umapParameters.minDist
    nNeighbors := umapParameters.nNeighbors
    nSamples := umapParameters.nSamples
    minClusterSize := hdbscanParameters.minClusterSize
    clusterMinSamples := hdbscanParameters.clusterMinSamples
    clusterSelectionEpsilon := hdbscanParameters.clusterSelectionEpsilon
    fetchDataQualityMetric := decide (metric.type = "dataQuality")
    fetchPerformanceMetric := decide (metric.type = "performance")
    dataQualityMetricColumnName :=
      match metric with
      | .dataQuality dimension => some dimension.name
      | _ => none
    performanceMetric :=
      some (match metric with
            | .performance m => m
            | _ => PerformanceMetric.accuracyScore) }

/-- Milliseconds in one day; `subDays` of date-fns steps the calendar back
whole days, modelled on millisecond timestamps. -/
def millisPerDay : Int := 86400000

/-- Function `subDays` of date-fns, modelled on millisecond timestamps. -/
def subDays (t : Int) (n : Nat) : Int := t - n * millisPerDay

/-- The `endTime` memo: the selected time-slice timestamp, falling back to
`primaryInferences.endTime` (`selectedTimestamp ?? new Date(...)`). -/
def computeEndTime (selectedTimestamp : Option Int) (primaryEndTime : Int) :
    Int :=
  selectedTimestamp.getD primaryEndTime

/-- The `timeRange` memo of `EmbeddingMain`:
`{ start: subDays(endTime, 2), end: endTime }`. -/
def computeTimeRange (selectedTimestamp : Option Int) (primaryEndTime : Int) :
    TimeRange :=
  let endTime := computeEndTime selectedTimestamp primaryEndTime
  { start := subDays endTime 2, «end» := endTime }

/-- Modelled from the spec: `getMetricShortNameByMetricKey` lives in
`@phoenix/utils/metricFormatUtils`, which is not among the surveyed sources;
the spec describes it as a fixed metric-to-short-name table. -/
def getMetricShortNameByMetricKey : PerformanceMetric → String
  | .accuracyScore => "Accuracy"

/-- The resolver `getClusterMetricName`: the per-cluster display label of the active
metric.  The TS `assertUnreachable` arms take the `never` type, so with the
exhaustive enums above there is no reachable abort case and the match is
total. -/
def getClusterMetricName (metric : MetricDefinition) : String :=
  match metric with
  | .dataQuality dimension => dimension.name ++ " avg"
  | .drift .euclideanDistance => "Cluster Drift"
  | .performance m => getMetricShortNameByMetricKey m
  | .retrieval .queryDistance => "% Query"

/-- Optional per-cluster metric payload `{ primaryValue, referenceValue }`. -/
structure MetricPair where
  primaryValue : Option Int
  referenceValue : Option Int
  deriving DecidableEq, Repr

/-- A cluster record of the UMAP response. -/
structure Cluster where
  id : String
  eventIds : List String
  driftRatio : Option Int
  primaryToCorpusRatio : Option Int
  dataQualityMetric : Option MetricPair
  performanceMetric : Option MetricPair
  deriving DecidableEq, Repr

/-- A context-retrieval edge of the UMAP response. -/
structure ContextRetrieval where
  queryId : String
  documentId : String
  relevance : Option Int
  deriving DecidableEq, Repr

/-- The cluster color mode of the store. -/
inductive ClusterColorMode where
  | default
  | highlight
  deriving DecidableEq, Repr

/-- The slice of the point-cloud store state the surveyed page reads and
writes.  Modelled from the spec: the store itself (`@phoenix/store`) is not
among the surveyed sources, only its mutator calls are. -/
structure PointCloudState where
  points : List NormalizedPoint
  clusters : List Cluster
  retrievals : List ContextRetrieval
  selectedClusterId : Option String
  selectedEventIds : Finset String
  highlightedClusterId : Option String
  errorMessage : Option String
  loading : Bool
  clusterColorMode : ClusterColorMode
  deriving DecidableEq

/-- The initial empty store state. -/
def initialPointCloudState : PointCloudState :=
  { points := []
    clusters := []
    retrievals := []
    selectedClusterId := none
    selectedEventIds := ∅
    highlightedClusterId := none
    errorMessage := none
    loading := false
    clusterColorMode := ClusterColorMode.default }

/-- Modelled from the spec: store mutator `setInitialData(points, clusters,
retrievals)` of `@phoenix/store` (not among the surveyed sources) — atomic
replace of the three collections that also clears `loading` and
`errorMessage`. -/
def setInitialData (s : PointCloudState) (points : List NormalizedPoint)
    (clusters : List Cluster) (retrievals : List ContextRetrieval) :
    PointCloudState :=
  { s with points := points
           clusters := clusters
           retrievals := retrievals
           loading := false
           errorMessage := none }

/-- Modelled from the spec: store mutator `reset()` of `@phoenix/store`
(not among the surveyed sources) — clears everything back to the initial
empty state; invoked before every re-query. -/
def reset (_ : PointCloudState) : PointCloudState := initialPointCloudState

/-- Store mutator `setLoading`. -/
def setLoading (s : PointCloudState) (loading : Bool) : PointCloudState :=
  { s with loading := loading }

/-- Store mutator `setErrorMessage`. -/
def setErrorMessage (s : PointCloudState) (errorMessage : Option String) :
    PointCloudState :=
  { s with errorMessage := errorMessage }

/-- Store mutator `setSelectedClusterId`. -/
def setSelectedClusterId (s : PointCloudState) (selectedClusterId : Option String) :
    PointCloudState :=
  { s with selectedClusterId := selectedClusterId }

/-- Store mutator `setSelectedEventIds`; `new Set(ids)` collapses
duplicates, modelled as `List.toFinset`. -/
def setSelectedEventIds (s : PointCloudState) (selectedEventIds : Finset String) :
    PointCloudState :=
  { s with selectedEventIds := selectedEventIds }

/-- Store mutator `setHighlightedClusterId`. -/
def setHighlightedClusterId (s : PointCloudState)
    (highlightedClusterId : Option String) : PointCloudState :=
  { s with highlightedClusterId := highlightedClusterId }

/-- Store mutator `setClusterColorMode`. -/
def setClusterColorMode (s : PointCloudState) (m : ClusterColorMode) :
    PointCloudState :=
  { s with clusterColorMode := m }

/-- The `onClick` handler of a `ClusterItem` in `ClustersPanelContents`:
toggle selection of the clicked cluster. -/
def onClusterClick (s : PointCloudState) (cluster : Cluster) :
    PointCloudState :=
  if s.selectedClusterId ≠ some cluster.id then
    setSelectedEventIds (setSelectedClusterId s (some cluster.id))
      cluster.eventIds.toFinset
  else
    setSelectedEventIds (setSelectedClusterId s none) ∅

/-- The `onMouseEnter` handler of a `ClusterItem`. -/
def onClusterMouseEnter (s : PointCloudState) (cluster : Cluster) :
    PointCloudState :=
  setHighlightedClusterId s (some cluster.id)

/-- The `onMouseLeave` handler of a `ClusterItem`. -/
def onClusterMouseLeave (s : PointCloudState) : PointCloudState :=
  setHighlightedClusterId s none

/-- The `onTabChange` callback of `ClustersPanelContents`: the
"configuration" tab switches the color mode to highlight, any other tab to
default. -/
def onTabChange (s : PointCloudState) (key : String) : PointCloudState :=
  if key = "configuration" then
    setClusterColorMode s ClusterColorMode.highlight
  else
    setClusterColorMode s ClusterColorMode.default

/-- The inbound UMAP response payload consumed by `PointCloudDisplay`. -/
structure UMAPResponse where
  data : List UMAPPointsEntry
  referenceData : List UMAPPointsEntry
  corpusData : List UMAPPointsEntry
  clusters : List Cluster
  contextRetrievals : List ContextRetrieval
  deriving DecidableEq, Repr

/-- A session: the store plus the request-lifecycle bookkeeping of
`useQueryLoader`.  `activeRequest` is the generation number of the issued,
not yet completed or disposed query reference; `nextRequestId` numbers
issued requests. -/
structure SessionState where
  store : PointCloudState
  activeRequest : Option Nat
  nextRequestId : Nat
  deriving DecidableEq

/-- The initial session: empty store, no request outstanding. -/
def initialSessionState : SessionState :=
  { store := initialPointCloudState, activeRequest := none, nextRequestId := 0 }

/-- The externally observable events that drive the request lifecycle. -/
inductive SessionEvent where
  | issue
  | respond (reqId : Nat) (response : UMAPResponse)
  | fail (reqId : Nat) (message : String)
  | teardown
  deriving DecidableEq, Repr

/-- One step of the request lifecycle.

`issue` is the `useEffect` of `EmbeddingMain` re-running: the cleanup
disposes the previous query reference, then the body runs
`resetPointCloud(); setLoading(true); loadQuery(...)`.

`respond` is a response arriving: modelled from the spec, a disposed (or
already completed) request's response is never written; an active request's
valid payload is normalized by `allSourceData` and written atomically by
`setInitialData`, while a malformed payload throws out of the render path
and writes nothing.

`fail` is a `RequestFailure`: modelled from the spec, it is captured into
`errorMessage` and clears `loading`.

`teardown` is session teardown: the current request is disposed
unconditionally and the store is reset to its initial empty state. -/
def step (s : SessionState) : SessionEvent → SessionState
  | .issue =>
    let disposed : SessionState := { s with activeRequest := none }
    { disposed with
        store := setLoading (reset disposed.store) true
        activeRequest := some s.nextRequestId
        nextRequestId := s.nextRequestId + 1 }
  | .respond reqId response =>
    if s.activeRequest = some reqId then
      match allSourceData response.data response.referenceData
          response.corpusData with
      | .ok points =>
        { s with
            store := setInitialData s.store points response.clusters
              response.contextRetrievals
            activeRequest := none }
      | .error _ => s
    else s
  | .fail reqId message =>
    if s.activeRequest = some reqId then
      { s with
          store := setLoading (setErrorMessage s.store (some message)) false
          activeRequest := none }
    else s
  | .teardown =>
    { s with store := reset s.store, activeRequest := none }

/-- Run a session from the initial state through a sequence of events. -/
def run (events : List SessionEvent) : SessionState :=
  events.foldl step initialSessionState

/-! ### Sample data used by concrete counterexamples and witnesses -/

/-- A well-formed 3D point record. -/
def samplePoint : UMAPPointsEntry :=
  { id := "p1"
    eventId := "e1"
    coordinates := Coordinates.point3D 1 2 3
    embeddingMetadata := { linkToData := none, rawData := none }
    eventMetadata :=
      { predictionId := none
        predictionLabel := none
        actualLabel := none
        predictionScore := none
        actualScore := none } }

/-- The normalization of `samplePoint`. -/
def sampleNormalized : NormalizedPoint :=
  { id := "p1"
    eventId := "e1"
    coordinates := Coordinates.point3D 1 2 3
    embeddingMetadata := { linkToData := none, rawData := none }
    eventMetadata :=
      { predictionId := none
        predictionLabel := none
        actualLabel := none
        predictionScore := none
        actualScore := none }
    position := [1, 2, 3]
    metaData := { id := "e1" } }

/-! ### Helper lemmas -/

/-- A successful `normalizePoint` keeps the record's `eventId` and attaches
`metaData.id = eventId`. -/
theorem normalizePoint_ok (d : UMAPPointsEntry) (p : NormalizedPoint)
    (h : normalizePoint d = .ok p) :
    p.eventId = d.eventId ∧ p.metaData = { id := d.eventId } := by
  unfold normalizePoint at h
  cases hc : coordinatesToThreeDimensionalPoint d.coordinates with
  | error e => rw [hc] at h; simp [Bind.bind, Except.bind] at h
  | ok pos =>
    rw [hc] at h
    simp only [Bind.bind, Except.bind, pure, Except.pure, Except.ok.injEq] at h
    subst h
    exact ⟨rfl, rfl⟩

/-- A successful `mapM normalizePoint` preserves length and attaches
`metaData.id = eventId` to every output point. -/
theorem mapM_normalizePoint_ok (xs : List UMAPPointsEntry) :
    ∀ l : List NormalizedPoint, xs.mapM normalizePoint = .ok l →
      l.length = xs.length ∧ ∀ p ∈ l, p.metaData.id = p.eventId := by
  induction xs with
  | nil =>
    intro l h
    rw [← List.mapM'_eq_mapM] at h
    simp only [List.mapM', pure, Except.pure, Except.ok.injEq] at h
    subst h
    simp
  | cons x xs ih =>
    intro l h
    rw [← List.mapM'_eq_mapM] at h
    simp only [List.mapM'] at h
    cases hx : normalizePoint x with
    | error e => rw [hx] at h; simp [Bind.bind, Except.bind] at h
    | ok p =>
      rw [hx] at h
      cases hxs : xs.mapM' normalizePoint with
      | error e =>
        rw [hxs] at h; simp [Bind.bind, Except.bind] at h
      | ok ps =>
        rw [hxs] at h
        simp only [Bind.bind, Except.bind, pure, Except.pure,
          Except.ok.injEq] at h
        subst h
        rw [List.mapM'_eq_mapM] at hxs
        obtain ⟨hlen, hmem⟩ := ih ps hxs
        refine ⟨by simp [hlen], ?_⟩
        intro q hq
        rcases List.mem_cons.mp hq with hq | hq
        · subst hq
          obtain ⟨he, hm⟩ := normalizePoint_ok x q hx
          rw [hm, he]
        · exact hmem q hq

/-! ### C1 — point-normalizer acceptance -/

/-- C1 (counterexample): the claim asserts that a well-formed 2D record is
accepted whenever the session dimensionality is 2; but
`coordinatesToThreeDimensionalPoint` consults no session dimensionality at
all and rejects every `Point2D` record unconditionally, so the record
`point2D 1 2` is rejected under every session configuration. -/
theorem point2D_record_always_rejected :
    coordinatesToThreeDimensionalPoint (Coordinates.point2D 1 2) =
      Except.error "Expected Point3D but got Point2D for coordinates" := rfl

/-- C1 (amended): normalization fails with the malformed-coordinate error
exactly when the record's shape tag is not `Point3D` — the session
dimensionality is fixed at 3 by this page — and a `Point3D` record
`(x, y, z)` normalizes to position `[x, y, z]`; every 2D record raises,
there is no 2D acceptance path. -/
theorem normalizer_accepts_exactly_point3D :
    (∀ x y z : Int,
      coordinatesToThreeDimensionalPoint (Coordinates.point3D x y z) =
        Except.ok [x, y, z]) ∧
    (∀ x y : Int,
      coordinatesToThreeDimensionalPoint (Coordinates.point2D x y) =
        Except.error "Expected Point3D but got Point2D for coordinates") ∧
    (∀ c : Coordinates,
      (coordinatesToThreeDimensionalPoint c).isOk =
        decide (c.typename = "Point3D")) := by
  refine ⟨fun x y z => rfl, fun x y => rfl, fun c => ?_⟩
  cases c <;> rfl

/-! ### C2 — point-normalizer output shape -/

/-- C2 (counterexample): the claim asserts every output point carries a
`sourceSet` field identifying its origin array; but `allSourceData` attaches
no such field — the very same record placed in the primary array or in the
corpus array yields identical output, so nothing in the output identifies
the origin array. -/
theorem normalizer_output_does_not_identify_origin :
    allSourceData [samplePoint] [] [] = allSourceData [] [] [samplePoint] ∧
    allSourceData [samplePoint] [] [] = Except.ok [sampleNormalized] :=
  ⟨rfl, rfl⟩

/-- C2 (amended): for every valid response the output length equals the sum
of the three input array lengths, and every output point carries
`metaData.id` equal to its `eventId` (the origin array is not recorded on
the point). -/
theorem normalizer_length_and_metadata
    (a b c : List UMAPPointsEntry) (l : List NormalizedPoint)
    (h : allSourceData a b c = .ok l) :
    l.length = a.length + b.length + c.length ∧
    ∀ p ∈ l, p.metaData.id = p.eventId := by
  unfold allSourceData at h
  obtain ⟨hlen, hmem⟩ := mapM_normalizePoint_ok (a ++ b ++ c) l h
  refine ⟨?_, hmem⟩
  simp only [List.length_append] at hlen
  omega

/-- C2 (witness): the amended theorem applied to a concrete valid response
with one primary and one corpus point. -/
theorem normalizer_length_and_metadata_witness :
    ([sampleNormalized, sampleNormalized] : List NormalizedPoint).length =
        ([samplePoint] : List UMAPPointsEntry).length +
        ([] : List UMAPPointsEntry).length +
        ([samplePoint] : List UMAPPointsEntry).length ∧
    ∀ p ∈ ([sampleNormalized, sampleNormalized] : List NormalizedPoint),
      p.metaData.id = p.eventId :=
  normalizer_length_and_metadata [samplePoint] [] [samplePoint]
    [sampleNormalized, sampleNormalized] rfl

/-! ### C3 — request parameters derived from the metric -/

/-- Sample fixed request inputs. -/
def sampleTimeRange : TimeRange := { start := 0, «end» := 172800000 }

/-- Sample UMAP hyperparameters. -/
def sampleUMAPParameters : UMAPParameters :=
  { minDist := 0, nNeighbors := 30, nSamples := 500 }

/-- Sample clustering hyperparameters. -/
def sampleClusteringParameters : ClusteringParameters :=
  { minClusterSize := 10, clusterMinSamples := 1, clusterSelectionEpsilon := 0 }

/-- The variables assembled for the drift metric. -/
def driftQueryVariables : UMAPQueryVariables :=
  assembleUMAPQueryVariables "embedding-dim" sampleTimeRange
    sampleUMAPParameters sampleClusteringParameters
    (MetricDefinition.drift DriftMetric.euclideanDistance)

/-- C3 (counterexample): the claim asserts `performanceMetric` is absent
whenever the variant is not `performance`; but for the drift variant the
code supplies the fallback value `accuracyScore` (its own comment: "the
fallback should never happen but is to satisfy the type checker"), so the
parameter is present, not absent. -/
theorem drift_variant_still_supplies_performance_metric :
    driftQueryVariables.fetchPerformanceMetric = false ∧
    driftQueryVariables.performanceMetric =
      some PerformanceMetric.accuracyScore ∧
    driftQueryVariables.performanceMetric ≠ none := by
  refine ⟨rfl, rfl, ?_⟩
  intro h
  exact Option.noConfusion h

/-- C3 (amended): the fetch flags are true exactly for the matching variant;
`dataQualityMetricColumnName` is the dimension name for `dataQuality` and
null otherwise; `performanceMetric` is the variant's metric for
`performance` and the fallback `accuracyScore` (never absent) otherwise. -/
theorem request_params_from_metric (i : String) (tr : TimeRange)
    (u : UMAPParameters) (hp : ClusteringParameters)
    (metric : MetricDefinition) :
    ((assembleUMAPQueryVariables i tr u hp metric).fetchDataQualityMetric,
     (assembleUMAPQueryVariables i tr u hp metric).dataQualityMetricColumnName,
     (assembleUMAPQueryVariables i tr u hp metric).fetchPerformanceMetric,
     (assembleUMAPQueryVariables i tr u hp metric).performanceMetric) =
      match metric with
      | .dataQuality d =>
        (true, some d.name, false, some PerformanceMetric.accuracyScore)
      | .drift _ =>
        (false, none, false, some PerformanceMetric.accuracyScore)
      | .performance m => (false, none, true, some m)
      | .retrieval _ =>
        (false, none, false, some PerformanceMetric.accuracyScore) := by
  cases metric <;> rfl

/-! ### C4 — loading flag discipline -/

/-- The loading flag equals "a request is outstanding" and is preserved by
every lifecycle step. -/
theorem step_loading_invariant (s : SessionState) (e : SessionEvent)
    (h : s.store.loading = s.activeRequest.isSome) :
    (step s e).store.loading = (step s e).activeRequest.isSome := by
  cases e with
  | issue => rfl
  | respond reqId response =>
    by_cases hr : s.activeRequest = some reqId
    · simp only [step, hr, if_pos rfl]
      cases hn : allSourceData response.data response.referenceData
          response.corpusData with
      | ok points => rfl
      | error e => exact h
    · simp only [step, if_neg hr]; exact h
  | fail reqId message =>
    by_cases hr : s.activeRequest = some reqId
    · simp only [step, hr, if_pos rfl]; rfl
    · simp only [step, if_neg hr]; exact h
  | teardown => rfl

/-- C4: in every reachable session state, `loading` is true exactly while a
request is outstanding — it becomes true at issuance and false at the
atomic `setInitialData` write, at a captured `RequestFailure`, and at
disposal (session teardown); it is never true with no request
outstanding. -/
theorem loading_iff_request_outstanding (events : List SessionEvent) :
    (run events).store.loading = (run events).activeRequest.isSome := by
  suffices h : ∀ s : SessionState, s.store.loading = s.activeRequest.isSome →
      (events.foldl step s).store.loading =
        (events.foldl step s).activeRequest.isSome from
    h initialSessionState rfl
  induction events with
  | nil => exact fun s h => h
  | cons e es ih =>
    intro s h
    exact ih (step s e) (step_loading_invariant s e h)

/-! ### C5 — disposed request's response is never written -/

/-- C5: a response whose request is not the active one (because a newer
request was issued — issuance disposes the previous request first — or
because it already completed) changes nothing: the session state after the
late response equals the state populated or pending for the newer
request. -/
theorem stale_response_not_written (events : List SessionEvent)
    (reqId : Nat) (response : UMAPResponse)
    (h : (run events).activeRequest ≠ some reqId) :
    run (events ++ [SessionEvent.respond reqId response]) = run events := by
  unfold run
  rw [List.foldl_append]
  show step (run events) (SessionEvent.respond reqId response) = run events
  simp only [step, if_neg h]

/-- An empty, well-formed response payload. -/
def emptyResponse : UMAPResponse :=
  { data := []
    referenceData := []
    corpusData := []
    clusters := []
    contextRetrievals := [] }

/-- C5 (witness): request 0 is issued, then request 1 is issued (disposing
request 0); request 0's late response is a no-op. -/
theorem stale_response_not_written_witness :
    run ([SessionEvent.issue, SessionEvent.issue] ++
        [SessionEvent.respond 0 emptyResponse]) =
      run [SessionEvent.issue, SessionEvent.issue] :=
  stale_response_not_written [SessionEvent.issue, SessionEvent.issue] 0
    emptyResponse (by decide)

/-! ### C6 — cluster click toggle -/

/-- A concrete cluster with a duplicated member event id. -/
def clusterC : Cluster :=
  { id := "C"
    eventIds := ["e2", "e2"]
    driftRatio := none
    primaryToCorpusRatio := none
    dataQualityMetric := none
    performanceMetric := none }

/-- A state in which a different cluster "D" is selected with event "e1". -/
def preClickState : PointCloudState :=
  { initialPointCloudState with
      selectedClusterId := some "D"
      selectedEventIds := {"e1"} }

/-- C6 (counterexample): the claim asserts two consecutive clicks on the
same cluster restore the pre-click selection state; but starting from a
state in which a *different* cluster "D" is selected, clicking cluster "C"
twice ends with the empty selection, not with "D" re-selected. -/
theorem double_click_not_identity :
    onClusterClick (onClusterClick preClickState clusterC) clusterC ≠
      preClickState := by decide

/-- C6 (amended): clicking an unselected cluster selects it and sets the
selected event ids to its member set (duplicates collapse); clicking the
selected cluster clears both fields; two consecutive clicks on the same
cluster restore the pre-click state exactly when that state is the empty
selection or is the cluster itself with exactly its member set — otherwise
the double click lands on the empty selection (cluster previously
unselected) or on the cluster's canonical selection (previously
selected). -/
theorem cluster_click_toggle (s : PointCloudState) (c : Cluster) :
    (onClusterClick s c =
      if s.selectedClusterId = some c.id then
        { s with selectedClusterId := none, selectedEventIds := ∅ }
      else
        { s with selectedClusterId := some c.id,
                 selectedEventIds := c.eventIds.toFinset }) ∧
    (onClusterClick (onClusterClick s c) c =
      if s.selectedClusterId = some c.id then
        { s with selectedClusterId := some c.id,
                 selectedEventIds := c.eventIds.toFinset }
      else
        { s with selectedClusterId := none, selectedEventIds := ∅ }) ∧
    (onClusterClick (onClusterClick s c) c = s ↔
      (s.selectedClusterId = none ∧ s.selectedEventIds = ∅) ∨
      (s.selectedClusterId = some c.id ∧
        s.selectedEventIds = c.eventIds.toFinset)) := by
  obtain ⟨pts, cls, rets, sel, ev, hi, err, ld, cm⟩ := s
  by_cases h : sel = some c.id <;>
    simp [onClusterClick, setSelectedClusterId, setSelectedEventIds, h,
      PointCloudState.mk.injEq, eq_comm]

/-! ### C7 — re-query resets selection and highlight -/

/-- C7: issuing a new request (any change to the request-determining
inputs re-runs the effect, which calls `resetPointCloud()` before
`loadQuery`) leaves the selection and highlight fields at their empty
values, whatever they were before. -/
theorem requery_resets_selection (s : SessionState) :
    (step s SessionEvent.issue).store.selectedClusterId = none ∧
    (step s SessionEvent.issue).store.selectedEventIds = ∅ ∧
    (step s SessionEvent.issue).store.highlightedClusterId = none :=
  ⟨rfl, rfl, rfl⟩

/-! ### C8 — color mode tracks the active tab -/

/-- C8: after any tab-change event sequence ending with tab `k`, the color
mode is `highlight` exactly when `k` is "configuration" and `default`
otherwise, independent of the preceding events; the handler is
idempotent. -/
theorem color_mode_tracks_last_tab (s : PointCloudState)
    (keys : List String) (k : String) :
    (((keys ++ [k]).foldl onTabChange s).clusterColorMode =
      if k = "configuration" then ClusterColorMode.highlight
      else ClusterColorMode.default) ∧
    (∀ key : String,
      onTabChange (onTabChange s key) key = onTabChange s key) := by
  constructor
  · rw [List.foldl_append]
    show (onTabChange _ k).clusterColorMode = _
    unfold onTabChange setClusterColorMode
    split <;> rfl
  · intro key
    unfold onTabChange setClusterColorMode
    split <;> rfl

/-! ### C9 — metric resolver labels -/

/-- C9: the resolver maps each metric variant to its specified label; with
the variant and metric enums exhaustive as defined, every combination is
handled (the TS `assertUnreachable` arms take the empty `never` type), so
there is no reachable abort and no silent default. -/
theorem metric_resolver_labels :
    (∀ d : Dimension,
      getClusterMetricName (MetricDefinition.dataQuality d) =
        d.name ++ " avg") ∧
    getClusterMetricName
        (MetricDefinition.drift DriftMetric.euclideanDistance) =
      "Cluster Drift" ∧
    (∀ m : PerformanceMetric,
      getClusterMetricName (MetricDefinition.performance m) =
        getMetricShortNameByMetricKey m) ∧
    getClusterMetricName
        (MetricDefinition.retrieval RetrievalMetric.queryDistance) =
      "% Query" :=
  ⟨fun d => rfl, rfl, fun m => rfl, rfl⟩

/-! ### C10 — the queried window spans exactly two days -/

/-- C10: the request's time range ends at the selected time-slice timestamp
(falling back to the primary inferences' end time) and starts exactly two
days (in milliseconds) earlier. -/
theorem time_range_spans_two_days (selectedTimestamp : Option Int)
    (primaryEndTime : Int) :
    (computeTimeRange selectedTimestamp primaryEndTime).«end» =
      selectedTimestamp.getD primaryEndTime ∧
    (computeTimeRange selectedTimestamp primaryEndTime).«end» -
      (computeTimeRange selectedTimestamp primaryEndTime).start =
        2 * millisPerDay := by
  refine ⟨rfl, ?_⟩
  show selectedTimestamp.getD primaryEndTime -
      subDays (selectedTimestamp.getD primaryEndTime) 2 = 2 * millisPerDay
  unfold subDays millisPerDay
  omega

end Phoenix
